import Mathlib

/-!
# FlyCharts — verification of the natural-language specification

Shallow embedding of the FlyCharts browser scripts:

* `src/unnamed/part_000` holds three concatenated scripts: a legacy poller
  using absolute localhost URLs (`LegacyPoller`), the map renderer
  (`FlyMap`), and a second legacy poller using relative URLs
  (`RelativePoller`).
* `src/script/simconnect.js` is the live-link client (`SimConnect`).

Machine numbers are modelled as rationals, fallible network calls as
`Except`, and the DOM/map mutable globals as explicit state records.
-/

/-- A JSON scalar value, used for the `error` field of poller responses. -/
inductive JsonVal where
  | null
  | bool (b : Bool)
  | num (q : ℚ)
  | str (s : String)
deriving DecidableEq, Repr

/-- JavaScript truthiness of a JSON scalar (`if (x)`). -/
def jsTruthy : JsonVal → Bool
  | JsonVal.null => false
  | JsonVal.bool b => b
  | JsonVal.num q => decide (q ≠ 0)
  | JsonVal.str s => decide (s ≠ "")

/-- Truthiness of a possibly-absent field (`undefined` is falsy). -/
def errTruthy : Option JsonVal → Bool
  | none => false
  | some v => jsTruthy v

/-- JavaScript `Math.round`: round half toward positive infinity. -/
def jsRound (q : ℚ) : ℤ := Int.floor (q + 1/2)

/-- The rational rendered by JavaScript `Number.prototype.toFixed(6)`. -/
def toFixed6 (q : ℚ) : ℚ := (Int.floor (q * 1000000 + 1/2) : ℚ) / 1000000

/-- The rational rendered by JavaScript `Number.prototype.toFixed(4)`. -/
def toFixed4 (q : ℚ) : ℚ := (Int.floor (q * 10000 + 1/2) : ℚ) / 10000

namespace FlyMap

/-- An airport record from `airports.json` (spec §3). -/
structure Airport where
  code : String
  lat : ℚ
  lng : ℚ
  size : ℤ
deriving DecidableEq, Repr

/-- A marker held in the `airportMarkers` layer group: position and the
popup text bound to it (the icon configuration is a fixed constant in the
source and is not varied). -/
structure AirportMarker where
  lat : ℚ
  lng : ℚ
  popup : String
deriving DecidableEq, Repr

/-- The marker built by `addAirportMarkers` for one airport. -/
def mkAirportMarker (a : Airport) : AirportMarker :=
  { lat := a.lat, lng := a.lng, popup := a.code }

/-- Subdomain option of a tile layer: the source passes either a string
or an array of strings. -/
inductive SubdomainSpec where
  | str (s : String)
  | list (l : List String)
deriving DecidableEq, Repr

/-- Configuration of an `L.tileLayer` source. -/
structure TileConfig where
  url : String
  attribution : String
  maxZoom : ℕ
  subdomains : Option SubdomainSpec := none
  pane : Option String := none
deriving DecidableEq, Repr

/-- A layer source: a raster tile layer or a MapLibre GL style layer. -/
inductive SourceConfig where
  | tile (cfg : TileConfig)
  | maplibre (style : String) (attribution : String)
deriving DecidableEq, Repr

/-- Role of a tile/style layer on the map. -/
inductive LayerKind where
  | base
  | overlay
deriving DecidableEq, Repr

/-- A layer attached to the map, identified by a fresh id. -/
structure Layer where
  id : ℕ
  kind : LayerKind
  source : SourceConfig
deriving DecidableEq, Repr

/-- Status messages written by `updateStatus` in the map script. -/
inductive StatusMsg where
  | mapLoaded
  | airportsLoadFailed
  | zoomUpdated (zoom : ℚ)
  | layerChanged (sel : String)
deriving DecidableEq, Repr

/-- Status style passed to `updateStatus`. -/
inductive StatusType where
  | success
  | error
deriving DecidableEq, Repr

/-- The module-level mutable state of the map script: the map with its
attached tile/style layers, the two current-layer variables, the
`airportMarkers` layer group and its contents, the zoom level, and the
status line. -/
structure MapState where
  attached : List Layer
  nextId : ℕ
  currentBaseLayer : Option ℕ
  currentOverlayLayer : Option ℕ
  markerGroupAttached : Bool
  airportMarkers : List AirportMarker
  zoom : ℚ
  statusMessage : Option StatusMsg
  statusType : Option StatusType
deriving DecidableEq, Repr

/-- `updateStatus(message, type)`. -/
def updateStatus (m : StatusMsg) (t : StatusType) (s : MapState) : MapState :=
  { s with statusMessage := some m, statusType := some t }

/-- The three-band zoom filter of `addAirportMarkers`: below zoom 5 only
size-1 airports, up to zoom 8 sizes at most 2, above that everything. -/
def bandB (zoom : ℚ) (a : Airport) : Bool :=
  if zoom < 5 then a.size == 1
  else if zoom ≤ 8 then decide (a.size ≤ 2)
  else true

/-- `addAirportMarkers(airports)`: clear the layer group, filter the full
airport list against the current zoom with the three-band rule, add a
marker per surviving airport, and (re-)attach the group to the map. -/
def addAirportMarkers (airports : List Airport) (s : MapState) : MapState :=
  let filtered := airports.filter fun a => bandB s.zoom a
  { s with
    airportMarkers := filtered.foldl (fun acc a => acc ++ [mkAirportMarker a]) [],
    markerGroupAttached := true }

/-- Attach a freshly created layer of the given kind and source
(`L.tileLayer(...).addTo(map)` / `L.maplibreGL(...).addTo(map)`),
recording it in the matching current-layer variable. -/
def attachLayer (k : LayerKind) (src : SourceConfig) (s : MapState) : MapState :=
  let l : Layer := { id := s.nextId, kind := k, source := src }
  let s := { s with attached := s.attached ++ [l], nextId := s.nextId + 1 }
  match k with
  | LayerKind.base => { s with currentBaseLayer := some l.id }
  | LayerKind.overlay => { s with currentOverlayLayer := some l.id }

/-- `map.removeLayer(x)` for a tracked layer id. -/
def removeLayerById (i : ℕ) (s : MapState) : MapState :=
  { s with attached := s.attached.filter fun l => decide (l.id ≠ i) }

/-- The first three lines of `changeMapLayer`: remove the current base
layer if any, remove the current overlay layer if any, and reset the
overlay variable to null. -/
def removeCurrentLayers (s : MapState) : MapState :=
  let s := match s.currentBaseLayer with
    | some b => removeLayerById b s
    | none => s
  let s := match s.currentOverlayLayer with
    | some o => removeLayerById o s
    | none => s
  { s with currentOverlayLayer := none }

/-- The TomTom MapLibre style URL used by `initMap` and the `tomtom` case. -/
def tomtomStyle : String :=
  "https://api.tomtom.com/style/2/custom/style/dG9tdG9tQEBAQ3NzVldyNW9vRE8xNGM4UjtYzY1cmw1O_KElrrp1-a36.json?key=8c6bwORxaSZca2MW4UclcA8gGYt8lbmE"

/-- Attribution of the TomTom style layer. -/
def tomtomAttribution : String := "© TomTom | © OpenStreetMap contributors"

/-- Base tile configuration of the `darkHybrid` case. -/
def darkHybridBaseConfig : TileConfig :=
  { url := "https://{s}.basemaps.cartocdn.com/dark_all/{z}/{x}/{y}{r}.png",
    attribution := "© CARTO | © Google",
    maxZoom := 19 }

/-- Overlay tile configuration of the `darkHybrid` case (Google labels). -/
def googleLabelsConfig : TileConfig :=
  { url := "https://{s}.google.com/vt/lyrs=h&x={x}&y={y}&z={z}",
    attribution := "",
    maxZoom := 20,
    subdomains := some (SubdomainSpec.list ["mt0", "mt1", "mt2", "mt3"]),
    pane := some "labels" }

/-- The switch table of `changeMapLayer` for the cases that share the
common `L.tileLayer(baseUrl, ...)` tail, with the default OSM case. -/
def baseLayerTable (sel : String) : TileConfig :=
  if sel == "satellite" then
    { url := "https://{s}.google.com/vt/lyrs=s&x={x}&y={y}&z={z}",
      attribution := "© Google",
      maxZoom := 19,
      subdomains := some (SubdomainSpec.list ["mt0", "mt1", "mt2", "mt3"]) }
  else if sel == "terrain" then
    { url := "https://stamen-tiles-{s}.a.ssl.fastly.net/terrain/{z}/{x}/{y}{r}.png",
      attribution := "Map tiles by <a href=\"http://stamen.com\">Stamen Design</a>, <a href=\"http://creativecommons.org/licenses/by/3.0\">CC BY 3.0</a> &mdash; Map data &copy; <a href=\"https://www.openstreetmap.org/copyright\">OpenStreetMap</a> contributors",
      maxZoom := 18,
      subdomains := some (SubdomainSpec.str "abcd") }
  else if sel == "topo" then
    { url := "https://{s}.tile.opentopomap.org/{z}/{x}/{y}.png",
      attribution := "© OpenTopoMap contributors",
      maxZoom := 17 }
  else if sel == "dark" then
    { url := "https://{s}.basemaps.cartocdn.com/dark_all/{z}/{x}/{y}{r}.png",
      attribution := "© CARTO",
      maxZoom := 19 }
  else if sel == "hybrid" then
    { url := "https://{s}.google.com/vt/lyrs=y&x={x}&y={y}&z={z}",
      attribution := "© Google",
      maxZoom := 19,
      subdomains := some (SubdomainSpec.list ["mt0", "mt1", "mt2", "mt3"]) }
  else
    { url := "https://{s}.tile.openstreetmap.org/{z}/{x}/{y}.png",
      attribution := "© OpenStreetMap contributors",
      maxZoom := 19 }

/-- `changeMapLayer()`: read the selection, remove the current base and
overlay layers, pick the new source configuration from the switch table,
attach it (plus the labels overlay in the `darkHybrid` case), re-run the
airport-marker recompute on the full airport list, and update the status
line. -/
def changeMapLayer (sel : String) (airports : List Airport) (s : MapState) : MapState :=
  let s := removeCurrentLayers s
  if sel == "darkHybrid" then
    let s := attachLayer LayerKind.base (SourceConfig.tile darkHybridBaseConfig) s
    let s := attachLayer LayerKind.overlay (SourceConfig.tile googleLabelsConfig) s
    let s := addAirportMarkers airports s
    updateStatus (StatusMsg.layerChanged sel) StatusType.success s
  else if sel == "tomtom" then
    let s := attachLayer LayerKind.base (SourceConfig.maplibre tomtomStyle tomtomAttribution) s
    let s := addAirportMarkers airports s
    updateStatus (StatusMsg.layerChanged sel) StatusType.success s
  else
    let s := attachLayer LayerKind.base (SourceConfig.tile (baseLayerTable sel)) s
    let s := addAirportMarkers airports s
    updateStatus (StatusMsg.layerChanged sel) StatusType.success s

/-- The module-level initial state: no map layers yet, an empty detached
`airportMarkers` layer group, default view zoom 4. -/
def mapState0 : MapState :=
  { attached := [],
    nextId := 1,
    currentBaseLayer := none,
    currentOverlayLayer := none,
    markerGroupAttached := false,
    airportMarkers := [],
    zoom := 4,
    statusMessage := none,
    statusType := none }

/-- `initMap()`: create the map, attach the TomTom style as base layer,
attach the `airportMarkers` group, then try to load `airports.json`
(`outcome` is the result of the fetch): on success add the airport
markers, on failure report it; finally report the map as loaded. -/
def initMap (outcome : Except String (List Airport)) : MapState :=
  let s := mapState0
  let s := attachLayer LayerKind.base (SourceConfig.maplibre tomtomStyle tomtomAttribution) s
  let s := { s with markerGroupAttached := true }
  let s := match outcome with
    | Except.ok airports => addAirportMarkers airports s
    | Except.error _ => updateStatus StatusMsg.airportsLoadFailed StatusType.error s
  updateStatus StatusMsg.mapLoaded StatusType.success s

/-- The base layers currently attached to the map. -/
def baseLayersOf (s : MapState) : List Layer :=
  s.attached.filter fun l => l.kind == LayerKind.base

/-- The overlay layers currently attached to the map. -/
def overlayLayersOf (s : MapState) : List Layer :=
  s.attached.filter fun l => l.kind == LayerKind.overlay

/-- State invariant of the map script: the attached base layers are
exactly the one tracked by `currentBaseLayer` (likewise for the overlay),
and every attached layer id is below the fresh-id counter. -/
def invB (s : MapState) : Bool :=
  ((baseLayersOf s).map Layer.id == s.currentBaseLayer.toList)
  && ((overlayLayersOf s).map Layer.id == s.currentOverlayLayer.toList)
  && s.attached.all fun l => decide (l.id < s.nextId)

end FlyMap

namespace LegacyPoller

/-- Parsed JSON body of `GET /aircraft/position` as the poller sees it:
an optional `error` field plus the rest of the payload, kept opaque as
the text the success branch logs. -/
structure PositionResponse where
  error : Option JsonVal
  payload : String
deriving DecidableEq, Repr

/-- Parsed JSON body of `GET /aircraft/type`: an optional `error` field
plus the `type` field logged on success. -/
structure TypeResponse where
  error : Option JsonVal
  type : String
deriving DecidableEq, Repr

/-- One console line emitted by the poller. -/
inductive LogEntry where
  | positionError (v : JsonVal)
  | positionSuccess (payload : String)
  | typeError (v : JsonVal)
  | typeSuccess (t : String)
  | fetchError (e : String)
deriving DecidableEq, Repr

/-- Is the entry the (success or error) log line for the position request? -/
def isPositionEntry : LogEntry → Bool
  | LogEntry.positionError _ => true
  | LogEntry.positionSuccess _ => true
  | _ => false

/-- Is the entry the error log line for the position request? -/
def isPositionErrorEntry : LogEntry → Bool
  | LogEntry.positionError _ => true
  | _ => false

/-- Is the entry the (success or error) log line for the type request? -/
def isTypeEntry : LogEntry → Bool
  | LogEntry.typeError _ => true
  | LogEntry.typeSuccess _ => true
  | _ => false

/-- Is the entry the error log line for the type request? -/
def isTypeErrorEntry : LogEntry → Bool
  | LogEntry.typeError _ => true
  | _ => false

/-- Is the entry the catch-block log line for a network failure? -/
def isFetchErrorEntry : LogEntry → Bool
  | LogEntry.fetchError _ => true
  | _ => false

/-- URL of the position request in the first script. -/
def positionUrl : String := "http://localhost:5000/aircraft/position"

/-- URL of the type request in the first script. -/
def typeUrl : String := "http://localhost:5000/aircraft/type"

/-- `fetchAircraftData()` of the first script of `part_000`: fetch the
position, log its error field if truthy and the payload otherwise, then
fetch the type and log likewise; a thrown fetch/parse error aborts the
rest of the body and is logged by the catch block. Each call of `fetch`
is modelled by an `Except` argument and recorded in the returned request
list; the function returns the console lines and the requests issued. -/
def fetchAircraftData (posR : Except String PositionResponse)
    (typeR : Except String TypeResponse) : List LogEntry × List String :=
  match posR with
  | Except.error e => ([LogEntry.fetchError e], [positionUrl])
  | Except.ok pos =>
    let l1 := if errTruthy pos.error
      then [LogEntry.positionError (pos.error.getD JsonVal.null)]
      else [LogEntry.positionSuccess pos.payload]
    match typeR with
    | Except.error e => (l1 ++ [LogEntry.fetchError e], [positionUrl, typeUrl])
    | Except.ok t =>
      let l2 := if errTruthy t.error
        then [LogEntry.typeError (t.error.getD JsonVal.null)]
        else [LogEntry.typeSuccess t.type]
      (l1 ++ l2, [positionUrl, typeUrl])

end LegacyPoller

namespace RelativePoller

/-- URL of the position request in the third script of `part_000`. -/
def positionUrl : String := "/aircraft/position"

/-- URL of the type request in the third script of `part_000`. -/
def typeUrl : String := "/aircraft/type"

/-- `fetchAircraftData()` of the third script of `part_000`: identical to
the first script except for the relative URLs; it is registered on its
own two-second `setInterval` timer and never consults the live-link
state. -/
def fetchAircraftData (posR : Except String LegacyPoller.PositionResponse)
    (typeR : Except String LegacyPoller.TypeResponse) :
    List LegacyPoller.LogEntry × List String :=
  match posR with
  | Except.error e => ([LegacyPoller.LogEntry.fetchError e], [positionUrl])
  | Except.ok pos =>
    let l1 := if errTruthy pos.error
      then [LegacyPoller.LogEntry.positionError (pos.error.getD JsonVal.null)]
      else [LegacyPoller.LogEntry.positionSuccess pos.payload]
    match typeR with
    | Except.error e =>
      (l1 ++ [LegacyPoller.LogEntry.fetchError e], [positionUrl, typeUrl])
    | Except.ok t =>
      let l2 := if errTruthy t.error
        then [LegacyPoller.LogEntry.typeError (t.error.getD JsonVal.null)]
        else [LegacyPoller.LogEntry.typeSuccess t.type]
      (l1 ++ l2, [positionUrl, typeUrl])

end RelativePoller

namespace SimConnect

/-- A position-reading payload as pushed by the server (spec §3/§6):
numeric fields required by the data model, optional extras. -/
structure PositionData where
  latitude : ℚ
  longitude : ℚ
  altitude : ℚ
  heading : ℚ
  ground_speed : Option ℚ := none
  aircraft_title : Option String := none
  atc_id : Option String := none
deriving DecidableEq, Repr

/-- Modelled from the spec: the global `aircraftData` object is declared
outside `src/` (only its field assignments appear in
`src/script/simconnect.js`); spec §3 gives it the fields of a position
reading, all initially absent. -/
structure AircraftData where
  latitude : Option ℚ := none
  longitude : Option ℚ := none
  altitude : Option ℚ := none
  heading : Option ℚ := none
  groundSpeed : Option ℚ := none
  aircraft : Option String := none
  callsign : Option String := none
deriving DecidableEq, Repr

/-- The single aircraft marker on the map: its position and the rotation
applied to its div icon (the remaining icon options are constants). -/
structure AircraftMarker where
  lat : ℚ
  lng : ℚ
  rotationDeg : ℚ
deriving DecidableEq, Repr

/-- Status styles passed to `updateStatus` by the live-link client. -/
inductive StatusKind where
  | success
  | error
  | warning
deriving DecidableEq, Repr

/-- Status texts written by the modelled live-link functions; the `live`
message carries the numbers rendered into the text. -/
inductive StatusMsg where
  | disconnectedFromSimConnect
  | disconnectError (e : String)
  | live (lat : ℚ) (lng : ℚ) (alt : ℤ)
deriving DecidableEq, Repr

/-- Module-level mutable state of the live-link client: the connection
flags, the socket (absent, or present with its connected flag), the two
buttons, the realtime indicator, the four displayed position form fields,
the global aircraft data, the single aircraft marker, the info panel, and
the status line. -/
structure SimState where
  isSimConnectConnected : Bool
  autoUpdateEnabled : Bool
  socket : Option Bool
  connectBtnDisabled : Bool
  disconnectBtnDisabled : Bool
  realtimeIndicatorVisible : Bool
  latField : Option ℚ
  lngField : Option ℚ
  altField : Option ℤ
  hdgField : Option ℤ
  aircraftData : AircraftData
  aircraftMarker : Option AircraftMarker
  aircraftInfoVisible : Bool
  statusMessage : Option StatusMsg
  statusKind : Option StatusKind
deriving DecidableEq, Repr

/-- Initial module state: disconnected, auto-update on, socket null, no
marker, empty fields. -/
def initSimState : SimState :=
  { isSimConnectConnected := false,
    autoUpdateEnabled := true,
    socket := none,
    connectBtnDisabled := false,
    disconnectBtnDisabled := true,
    realtimeIndicatorVisible := false,
    latField := none,
    lngField := none,
    altField := none,
    hdgField := none,
    aircraftData := {},
    aircraftMarker := none,
    aircraftInfoVisible := false,
    statusMessage := none,
    statusKind := none }

/-- `socket && socket.connected`. -/
def socketConnected (s : SimState) : Bool :=
  match s.socket with
  | some conn => conn
  | none => false

/-- JavaScript `x || ""` on a possibly-absent string. -/
def jsOrEmpty : Option String → String
  | some st => if st == "" then "" else st
  | none => ""

/-- `updateAircraftMarkerPosition(lat, lng, heading)`: remove the
existing aircraft marker if present, then add a fresh marker whose div
icon is rotated by `heading - 90` degrees. -/
def updateAircraftMarkerPosition (lat lng heading : ℚ) (s : SimState) : SimState :=
  let s := match s.aircraftMarker with
    | some _ => { s with aircraftMarker := none }
    | none => s
  { s with aircraftMarker := some { lat := lat, lng := lng, rotationDeg := heading - 90 } }

/-- `handleRealtimePositionUpdate(positionData)`: bail out when
auto-update is disabled; otherwise write the four form fields (latitude
and longitude via `toFixed(6)`, altitude and heading via `Math.round`),
assign every field of the global `aircraftData`, replace the aircraft
marker, show the aircraft info panel (`showAircraftInfo` is defined
outside `src/`; its effect here is the panel flag), and set the live
status line. -/
def handleRealtimePositionUpdate (d : PositionData) (s : SimState) : SimState :=
  if !s.autoUpdateEnabled then s
  else
    let s := { s with
      latField := some (toFixed6 d.latitude),
      lngField := some (toFixed6 d.longitude),
      altField := some (jsRound d.altitude),
      hdgField := some (jsRound d.heading),
      aircraftData := {
        latitude := some d.latitude,
        longitude := some d.longitude,
        altitude := some d.altitude,
        heading := some d.heading,
        groundSpeed := d.ground_speed,
        aircraft := d.aircraft_title,
        callsign := some (jsOrEmpty d.atc_id) } }
    let s := updateAircraftMarkerPosition d.latitude d.longitude d.heading s
    let s := { s with aircraftInfoVisible := true }
    { s with
      statusMessage := some (StatusMsg.live (toFixed4 d.latitude) (toFixed4 d.longitude) (jsRound d.altitude)),
      statusKind := some StatusKind.success }

/-- The `aircraft_position_update` socket handler registered by
`initWebSocket`: forward to `handleRealtimePositionUpdate` only when
auto-update is enabled and the payload is truthy. -/
def onAircraftPositionUpdate (d : Option PositionData) (s : SimState) : SimState :=
  match d with
  | some data => if s.autoUpdateEnabled then handleRealtimePositionUpdate data s else s
  | none => s

/-- `disconnectSimConnect()`: POST the disconnect request; if it yields a
parsed JSON body (of any content), force the disconnected state — clear
the connected flag, enable the connect button, disable the disconnect
button, hide the realtime indicator, report success; if the request or
parse throws, the catch block only reports the error. -/
def disconnectSimConnect (outcome : Except String String) (s : SimState) : SimState :=
  match outcome with
  | Except.ok _result =>
    { s with
      isSimConnectConnected := false,
      connectBtnDisabled := false,
      disconnectBtnDisabled := true,
      realtimeIndicatorVisible := false,
      statusMessage := some StatusMsg.disconnectedFromSimConnect,
      statusKind := some StatusKind.success }
  | Except.error e =>
    { s with
      statusMessage := some (StatusMsg.disconnectError e),
      statusKind := some StatusKind.error }

/-- Parsed JSON body of `GET /aircraft/position` as the enhanced poller
sees it: an optional `error` field, and otherwise the position payload
forwarded to `handleRealtimePositionUpdate`. -/
structure EnhPositionResponse where
  error : Option JsonVal
  data : PositionData
deriving DecidableEq, Repr

/-- Parsed JSON body of `GET /aircraft/type` for the enhanced poller. -/
structure EnhTypeResponse where
  error : Option JsonVal
  type : String
deriving DecidableEq, Repr

/-- `fetchAircraftDataEnhanced()`: return immediately when the socket is
connected, and again when SimConnect is not connected; otherwise fetch
the position (apply it when its error field is falsy and auto-update is
on), then fetch the type (store it when its error field is falsy); a
thrown fetch/parse error aborts the rest and is swallowed by the catch
block. Returns the new state and the list of requests issued. -/
def fetchAircraftDataEnhanced (s : SimState)
    (posR : Except String EnhPositionResponse)
    (typeR : Except String EnhTypeResponse) : SimState × List String :=
  if socketConnected s then (s, [])
  else if !s.isSimConnectConnected then (s, [])
  else
    match posR with
    | Except.error _ => (s, [RelativePoller.positionUrl])
    | Except.ok pos =>
      let s1 := if errTruthy pos.error then s
        else if s.autoUpdateEnabled then handleRealtimePositionUpdate pos.data s
        else s
      match typeR with
      | Except.error _ => (s1, [RelativePoller.positionUrl, RelativePoller.typeUrl])
      | Except.ok t =>
        let s2 := if errTruthy t.error then s1
          else { s1 with aircraftData := { s1.aircraftData with aircraft := some t.type } }
        (s2, [RelativePoller.positionUrl, RelativePoller.typeUrl])

end SimConnect

section HelperLemmas

/-- Folding marker insertion over a list is appending the mapped list. -/
theorem foldl_append_markers (l : List FlyMap.Airport) (acc : List FlyMap.AirportMarker) :
    l.foldl (fun acc a => acc ++ [FlyMap.mkAirportMarker a]) acc
      = acc ++ l.map FlyMap.mkAirportMarker := by
  induction l generalizing acc with
  | nil => simp
  | cons a l ih => simp [List.foldl_cons, ih]

end HelperLemmas

/-- The example payload of spec §8: latitude 47.6, longitude -122.3,
altitude 1000, heading 90. -/
def specExamplePayload : SimConnect.PositionData :=
  { latitude := 47.6, longitude := -122.3, altitude := 1000, heading := 90 }

/-- A live-link state with auto-update switched off. -/
def autoOffState : SimConnect.SimState :=
  { SimConnect.initSimState with autoUpdateEnabled := false }

/-- A live-link state after a successful connect: connected flag set,
connect button disabled, disconnect button enabled, indicator shown. -/
def connectedState : SimConnect.SimState :=
  { SimConnect.initSimState with
    isSimConnectConnected := true,
    connectBtnDisabled := true,
    disconnectBtnDisabled := false,
    realtimeIndicatorVisible := true }

/-- A live-link state whose socket reports itself connected. -/
def socketLiveState : SimConnect.SimState :=
  { connectedState with socket := some true }

/-- C1: for every airport list and every map state (hence every zoom
level), `addAirportMarkers` leaves in the marker group exactly the
markers of the airports passing the three-band rule — independently of
whatever markers were attached before, which are therefore all cleared. -/
theorem addAirportMarkers_exact_band_filter
    (airports : List FlyMap.Airport) (s : FlyMap.MapState) :
    (FlyMap.addAirportMarkers airports s).airportMarkers
        = (airports.filter fun a => FlyMap.bandB s.zoom a).map FlyMap.mkAirportMarker
      ∧ ∀ m, m ∈ (FlyMap.addAirportMarkers airports s).airportMarkers ↔
          ∃ a, a ∈ airports ∧ FlyMap.bandB s.zoom a = true ∧ m = FlyMap.mkAirportMarker a := by
  constructor
  · simp [FlyMap.addAirportMarkers, foldl_append_markers]
  · intro m
    simp [FlyMap.addAirportMarkers, foldl_append_markers, List.mem_map, List.mem_filter]
    constructor
    · rintro ⟨a, ⟨ha, hb⟩, rfl⟩
      exact ⟨a, ha, hb, rfl⟩
    · rintro ⟨a, ha, hb, rfl⟩
      exact ⟨a, ⟨ha, hb⟩, rfl⟩

/-- C5: when auto-update is disabled, an incoming
`aircraft_position_update` event leaves the whole live-link state — the
displayed fields, `aircraftData`, the aircraft marker, and
`isSimConnectConnected` — unchanged. -/
theorem position_update_noop_when_auto_update_disabled
    (d : Option SimConnect.PositionData) (s : SimConnect.SimState)
    (h : s.autoUpdateEnabled = false) :
    SimConnect.onAircraftPositionUpdate d s = s := by
  cases d with
  | none => rfl
  | some data =>
    simp [SimConnect.onAircraftPositionUpdate, h]

/-- C5 witness: the event handler at a concrete payload and a concrete
auto-update-off state is the identity. -/
theorem position_update_noop_when_auto_update_disabled_witness :
    SimConnect.onAircraftPositionUpdate (some specExamplePayload) autoOffState = autoOffState :=
  position_update_noop_when_auto_update_disabled (some specExamplePayload) autoOffState rfl

/-- C7: for the spec §8 example payload, `handleRealtimePositionUpdate`
sets the displayed altitude field to 1000 and the aircraft marker icon
rotation to 0 degrees (heading minus 90), in any state with auto-update
enabled. -/
theorem example_position_update_alt_and_rotation
    (s : SimConnect.SimState) (h : s.autoUpdateEnabled = true) :
    (SimConnect.handleRealtimePositionUpdate specExamplePayload s).altField = some 1000
      ∧ ((SimConnect.handleRealtimePositionUpdate specExamplePayload s).aircraftMarker.map
          SimConnect.AircraftMarker.rotationDeg) = some 0 := by
  cases hm : s.aircraftMarker <;>
    simp [SimConnect.handleRealtimePositionUpdate, SimConnect.updateAircraftMarkerPosition,
      specExamplePayload, h, hm, jsRound] <;>
    norm_num

/-- C7 witness: the example payload applied to the initial state (whose
auto-update toggle starts enabled). -/
theorem example_position_update_alt_and_rotation_witness :
    (SimConnect.handleRealtimePositionUpdate specExamplePayload SimConnect.initSimState).altField = some 1000
      ∧ ((SimConnect.handleRealtimePositionUpdate specExamplePayload SimConnect.initSimState).aircraftMarker.map
          SimConnect.AircraftMarker.rotationDeg) = some 0 :=
  example_position_update_alt_and_rotation SimConnect.initSimState rfl

/-- C8: applying the same position update twice leaves the system exactly
as applying it once — `handleRealtimePositionUpdate`, including the
marker replacement, is idempotent on the whole live-link state. -/
theorem handleRealtimePositionUpdate_idempotent
    (d : SimConnect.PositionData) (s : SimConnect.SimState) :
    SimConnect.handleRealtimePositionUpdate d (SimConnect.handleRealtimePositionUpdate d s)
      = SimConnect.handleRealtimePositionUpdate d s := by
  cases h : s.autoUpdateEnabled with
  | false => simp [SimConnect.handleRealtimePositionUpdate, h]
  | true =>
    cases hm : s.aircraftMarker <;>
      simp [SimConnect.handleRealtimePositionUpdate, SimConnect.updateAircraftMarkerPosition, h, hm]

/-- C2 counterexample: when the disconnect request fails on the network
(the fetch throws), `disconnectSimConnect` leaves a connected state
connected — the claim that every outcome ends disconnected is false. -/
theorem disconnect_network_failure_keeps_connected :
    (SimConnect.disconnectSimConnect (Except.error "Failed to fetch") connectedState).isSimConnectConnected = true
      ∧ (SimConnect.disconnectSimConnect (Except.error "Failed to fetch") connectedState).disconnectBtnDisabled = false
      ∧ (SimConnect.disconnectSimConnect (Except.error "Failed to fetch") connectedState).connectBtnDisabled = true :=
  ⟨rfl, rfl, rfl⟩

/-- C2 amended: whenever the disconnect request completes with a parsed
JSON body — success or error payload alike — the state is forced to
disconnected (flag cleared, connect button enabled, disconnect button
disabled); when the request throws, the connection flag and both buttons
are left unchanged. -/
theorem disconnectSimConnect_outcomes
    (s : SimConnect.SimState) (r e : String) :
    ((SimConnect.disconnectSimConnect (Except.ok r) s).isSimConnectConnected = false
      ∧ (SimConnect.disconnectSimConnect (Except.ok r) s).connectBtnDisabled = false
      ∧ (SimConnect.disconnectSimConnect (Except.ok r) s).disconnectBtnDisabled = true)
    ∧ ((SimConnect.disconnectSimConnect (Except.error e) s).isSimConnectConnected = s.isSimConnectConnected
      ∧ (SimConnect.disconnectSimConnect (Except.error e) s).connectBtnDisabled = s.connectBtnDisabled
      ∧ (SimConnect.disconnectSimConnect (Except.error e) s).disconnectBtnDisabled = s.disconnectBtnDisabled) := by
  exact ⟨⟨rfl, rfl, rfl⟩, ⟨rfl, rfl, rfl⟩⟩

/-- C10: whenever `isSimConnectConnected` is false, a tick of the
enhanced fallback poller issues no HTTP request and changes nothing. -/
theorem enhanced_poller_noop_when_disconnected
    (s : SimConnect.SimState)
    (posR : Except String SimConnect.EnhPositionResponse)
    (typeR : Except String SimConnect.EnhTypeResponse)
    (h : s.isSimConnectConnected = false) :
    SimConnect.fetchAircraftDataEnhanced s posR typeR = (s, []) := by
  cases hs : SimConnect.socketConnected s <;>
    simp [SimConnect.fetchAircraftDataEnhanced, hs, h]

/-- C10 witness: a tick at the initial (disconnected) state with concrete
successful responses is a no-op. -/
theorem enhanced_poller_noop_when_disconnected_witness :
    SimConnect.fetchAircraftDataEnhanced SimConnect.initSimState
        (Except.ok { error := none, data := specExamplePayload })
        (Except.ok { error := none, type := "B738" })
      = (SimConnect.initSimState, []) :=
  enhanced_poller_noop_when_disconnected SimConnect.initSimState
    (Except.ok { error := none, data := specExamplePayload })
    (Except.ok { error := none, type := "B738" }) rfl

/-- C4 counterexample: the legacy `fetchAircraftData` poller of the third
script of `part_000`, registered on its own two-second timer, issues its
two HTTP requests on every tick — it never consults the live-link state,
so a tick while the live link is connected issues two requests, not
zero. -/
theorem legacy_poller_fetches_when_connected :
    (RelativePoller.fetchAircraftData
        (Except.ok { error := none, payload := "position" })
        (Except.ok { error := none, type := "B738" })).2
      = [RelativePoller.positionUrl, RelativePoller.typeUrl]
    ∧ (RelativePoller.fetchAircraftData
        (Except.ok { error := none, payload := "position" })
        (Except.ok { error := none, type := "B738" })).2.length = 2 :=
  ⟨rfl, rfl⟩

/-- C4 amended: the enhanced fallback poller
(`fetchAircraftDataEnhanced`) issues zero HTTP requests and changes
nothing whenever the socket reports itself connected; the legacy
`fetchAircraftData` poller, however, issues at least one request on every
tick regardless of the live-link state. -/
theorem fallback_poller_noop_when_socket_connected
    (s : SimConnect.SimState)
    (posR : Except String SimConnect.EnhPositionResponse)
    (typeR : Except String SimConnect.EnhTypeResponse)
    (posR2 : Except String LegacyPoller.PositionResponse)
    (typeR2 : Except String LegacyPoller.TypeResponse)
    (h : SimConnect.socketConnected s = true) :
    SimConnect.fetchAircraftDataEnhanced s posR typeR = (s, [])
      ∧ (RelativePoller.fetchAircraftData posR2 typeR2).2 ≠ [] := by
  constructor
  · simp [SimConnect.fetchAircraftDataEnhanced, h]
  · cases posR2 with
    | error e => simp [RelativePoller.fetchAircraftData]
    | ok pos => cases typeR2 <;> simp [RelativePoller.fetchAircraftData]

/-- C4 amended witness: at a concrete state whose socket is connected,
the enhanced poller issues no request, while the legacy poller issues a
nonempty request list. -/
theorem fallback_poller_noop_when_socket_connected_witness :
    SimConnect.fetchAircraftDataEnhanced socketLiveState
        (Except.ok { error := none, data := specExamplePayload })
        (Except.ok { error := none, type := "B738" })
      = (socketLiveState, [])
    ∧ (RelativePoller.fetchAircraftData
        (Except.ok { error := none, payload := "position" })
        (Except.ok { error := none, type := "B738" })).2 ≠ [] :=
  fallback_poller_noop_when_socket_connected socketLiveState
    (Except.ok { error := none, data := specExamplePayload })
    (Except.ok { error := none, type := "B738" })
    (Except.ok { error := none, payload := "position" })
    (Except.ok { error := none, type := "B738" }) rfl

/-- C9 counterexample: a position response whose `error` field is
present but falsy (the empty string) is logged as a success, so "decided
solely by the presence of an error field" is false on the code — the
decision is JavaScript truthiness. -/
theorem error_field_present_but_falsy_logs_success :
    ({ error := some (JsonVal.str ""), payload := "position" } : LegacyPoller.PositionResponse).error.isSome = true
      ∧ (LegacyPoller.fetchAircraftData
          (Except.ok { error := some (JsonVal.str ""), payload := "position" })
          (Except.ok { error := none, type := "B738" })).1
        = [LegacyPoller.LogEntry.positionSuccess "position",
           LegacyPoller.LogEntry.typeSuccess "B738"] := by
  exact ⟨rfl, rfl⟩

/-- C9 amended: in every poll cycle each parsed response produces exactly
one log line, an error line precisely when its `error` field is truthy (a
present but falsy value counts as success); a network failure is caught
and logged, aborting the rest of the cycle; each endpoint is requested at
most once per cycle (no retry), and the poller always returns normally. -/
theorem poller_error_discipline
    (pos : LegacyPoller.PositionResponse) (t : LegacyPoller.TypeResponse)
    (e : String) (tR : Except String LegacyPoller.TypeResponse) :
    (((LegacyPoller.fetchAircraftData (Except.ok pos) (Except.ok t)).1.countP LegacyPoller.isPositionEntry = 1)
      ∧ ((LegacyPoller.fetchAircraftData (Except.ok pos) (Except.ok t)).1.countP LegacyPoller.isPositionErrorEntry
          = if errTruthy pos.error then 1 else 0)
      ∧ ((LegacyPoller.fetchAircraftData (Except.ok pos) (Except.ok t)).1.countP LegacyPoller.isTypeEntry = 1)
      ∧ ((LegacyPoller.fetchAircraftData (Except.ok pos) (Except.ok t)).1.countP LegacyPoller.isTypeErrorEntry
          = if errTruthy t.error then 1 else 0)
      ∧ ((LegacyPoller.fetchAircraftData (Except.ok pos) (Except.ok t)).1.countP LegacyPoller.isFetchErrorEntry = 0)
      ∧ ((LegacyPoller.fetchAircraftData (Except.ok pos) (Except.ok t)).2
          = [LegacyPoller.positionUrl, LegacyPoller.typeUrl]))
    ∧ (LegacyPoller.fetchAircraftData (Except.error e) tR
        = ([LegacyPoller.LogEntry.fetchError e], [LegacyPoller.positionUrl]))
    ∧ (((LegacyPoller.fetchAircraftData (Except.ok pos) (Except.error e)).1.countP LegacyPoller.isPositionEntry = 1)
      ∧ ((LegacyPoller.fetchAircraftData (Except.ok pos) (Except.error e)).1.countP LegacyPoller.isFetchErrorEntry = 1)
      ∧ ((LegacyPoller.fetchAircraftData (Except.ok pos) (Except.error e)).2
          = [LegacyPoller.positionUrl, LegacyPoller.typeUrl])) := by
  refine ⟨⟨?_, ?_, ?_, ?_, ?_, ?_⟩, rfl, ?_, ?_, ?_⟩ <;>
    cases hp : errTruthy pos.error <;>
    cases ht : errTruthy t.error <;>
    simp [LegacyPoller.fetchAircraftData, hp, ht, LegacyPoller.isPositionEntry,
      LegacyPoller.isPositionErrorEntry, LegacyPoller.isTypeEntry,
      LegacyPoller.isTypeErrorEntry, LegacyPoller.isFetchErrorEntry, List.countP_cons,
      List.countP_nil, List.countP_append]

namespace FlyMap

/-- The new-source table of spec §4.2 / §3: the source configuration that
a layer-change request with the given selection must attach as base
layer. -/
def newBaseSource (sel : String) : SourceConfig :=
  if sel == "darkHybrid" then SourceConfig.tile darkHybridBaseConfig
  else if sel == "tomtom" then SourceConfig.maplibre tomtomStyle tomtomAttribution
  else SourceConfig.tile (baseLayerTable sel)

/-- The tile/style layers a layer-change request leaves attached, given
the fresh-id counter at the time of the call. -/
def newLayers (sel : String) (n : ℕ) : List Layer :=
  if sel == "darkHybrid" then
    [{ id := n, kind := LayerKind.base, source := SourceConfig.tile darkHybridBaseConfig },
     { id := n + 1, kind := LayerKind.overlay, source := SourceConfig.tile googleLabelsConfig }]
  else [{ id := n, kind := LayerKind.base, source := newBaseSource sel }]

end FlyMap

/-- Iterating `changeMapLayer` over a sequence of layer selections. -/
def applyChanges (airports : List FlyMap.Airport) (sels : List String)
    (s : FlyMap.MapState) : FlyMap.MapState :=
  sels.foldl (fun st sel => FlyMap.changeMapLayer sel airports st) s

/-- Destructing the map invariant: an attached base layer is the one
tracked by `currentBaseLayer`, an attached overlay the one tracked by
`currentOverlayLayer`. -/
theorem invB_dest {s : FlyMap.MapState} (h : FlyMap.invB s = true) :
    ∀ l ∈ s.attached,
      (l.kind = FlyMap.LayerKind.base → s.currentBaseLayer = some l.id)
      ∧ (l.kind = FlyMap.LayerKind.overlay → s.currentOverlayLayer = some l.id) := by
  simp only [FlyMap.invB, Bool.and_eq_true, beq_iff_eq] at h
  obtain ⟨⟨hb, ho⟩, _⟩ := h
  intro l hl
  constructor
  · intro hk
    have hmem : l.id ∈ (FlyMap.baseLayersOf s).map FlyMap.Layer.id :=
      List.mem_map_of_mem _ (List.mem_filter.mpr ⟨hl, by simp [hk]⟩)
    rw [hb] at hmem
    cases hcb : s.currentBaseLayer with
    | none => rw [hcb] at hmem; simp [Option.toList] at hmem
    | some b => rw [hcb] at hmem; simp [Option.toList] at hmem; rw [hmem]
  · intro hk
    have hmem : l.id ∈ (FlyMap.overlayLayersOf s).map FlyMap.Layer.id :=
      List.mem_map_of_mem _ (List.mem_filter.mpr ⟨hl, by simp [hk]⟩)
    rw [ho] at hmem
    cases hco : s.currentOverlayLayer with
    | none => rw [hco] at hmem; simp [Option.toList] at hmem
    | some o => rw [hco] at hmem; simp [Option.toList] at hmem; rw [hmem]

/-- Every attached tile/style layer is tracked by one of the two
current-layer variables. -/
theorem invB_attached_ids {s : FlyMap.MapState} (h : FlyMap.invB s = true) :
    ∀ l ∈ s.attached,
      s.currentBaseLayer = some l.id ∨ s.currentOverlayLayer = some l.id := by
  intro l hl
  cases hk : l.kind with
  | base => exact Or.inl ((invB_dest h l hl).1 hk)
  | overlay => exact Or.inr ((invB_dest h l hl).2 hk)

/-- The ids tracked by the current-layer variables are below the fresh-id
counter. -/
theorem invB_current_lt {s : FlyMap.MapState} (h : FlyMap.invB s = true) :
    (∀ b, s.currentBaseLayer = some b → b < s.nextId)
    ∧ (∀ o, s.currentOverlayLayer = some o → o < s.nextId) := by
  simp only [FlyMap.invB, Bool.and_eq_true, beq_iff_eq, List.all_eq_true,
    decide_eq_true_eq] at h
  obtain ⟨⟨hb, ho⟩, hlt⟩ := h
  constructor
  · intro b hbb
    have hmem : b ∈ (FlyMap.baseLayersOf s).map FlyMap.Layer.id := by
      rw [hb, hbb]; simp [Option.toList]
    obtain ⟨l, hl, rfl⟩ := List.mem_map.mp hmem
    exact hlt l (List.mem_filter.mp hl).1
  · intro o hoo
    have hmem : o ∈ (FlyMap.overlayLayersOf s).map FlyMap.Layer.id := by
      rw [ho, hoo]; simp [Option.toList]
    obtain ⟨l, hl, rfl⟩ := List.mem_map.mp hmem
    exact hlt l (List.mem_filter.mp hl).1

/-- Under the invariant, the removal lines of `changeMapLayer` detach
every tile/style layer. -/
theorem removeCurrentLayers_eq {s : FlyMap.MapState} (h : FlyMap.invB s = true) :
    FlyMap.removeCurrentLayers s = { s with attached := [], currentOverlayLayer := none } := by
  have hd := invB_attached_ids h
  cases hb : s.currentBaseLayer with
  | some b =>
    cases ho : s.currentOverlayLayer with
    | some o =>
      have key : ∀ a ∈ s.attached, a.id = b ∨ a.id = o := by
        intro a ha
        rcases hd a ha with h1 | h1
        · rw [hb] at h1; exact Or.inl (Option.some.inj h1).symm
        · rw [ho] at h1; exact Or.inr (Option.some.inj h1).symm
      simp [FlyMap.removeCurrentLayers, FlyMap.removeLayerById, hb, ho]
      intro a ha hno
      rcases key a ha with hab | hao
      · exact hab
      · exact absurd hao hno
    | none =>
      have key : ∀ a ∈ s.attached, a.id = b := by
        intro a ha
        rcases hd a ha with h1 | h1
        · rw [hb] at h1; exact (Option.some.inj h1).symm
        · rw [ho] at h1; simp at h1
      simp [FlyMap.removeCurrentLayers, FlyMap.removeLayerById, hb, ho]
      exact key
  | none =>
    cases ho : s.currentOverlayLayer with
    | some o =>
      have key : ∀ a ∈ s.attached, a.id = o := by
        intro a ha
        rcases hd a ha with h1 | h1
        · rw [hb] at h1; simp at h1
        · rw [ho] at h1; exact (Option.some.inj h1).symm
      simp [FlyMap.removeCurrentLayers, FlyMap.removeLayerById, hb, ho]
      exact key
    | none =>
      have hnil : s.attached = [] := by
        rw [List.eq_nil_iff_forall_not_mem]
        intro l hla
        rcases hd l hla with h1 | h1
        · rw [hb] at h1; simp at h1
        · rw [ho] at h1; simp at h1
      simp [FlyMap.removeCurrentLayers, hb, ho, hnil]

/-- Under the invariant, a layer-change call computes to an explicit
state: old layers gone, the new layer(s) attached with fresh ids, the
markers recomputed, the status updated. -/
theorem changeMapLayer_eq (sel : String) (airports : List FlyMap.Airport)
    (s : FlyMap.MapState) (h : FlyMap.invB s = true) :
    FlyMap.changeMapLayer sel airports s =
      { s with
        attached := FlyMap.newLayers sel s.nextId,
        nextId := s.nextId + (if sel == "darkHybrid" then 2 else 1),
        currentBaseLayer := some s.nextId,
        currentOverlayLayer := if sel == "darkHybrid" then some (s.nextId + 1) else none,
        markerGroupAttached := true,
        airportMarkers := (airports.filter fun a => FlyMap.bandB s.zoom a).map FlyMap.mkAirportMarker,
        statusMessage := some (FlyMap.StatusMsg.layerChanged sel),
        statusType := some FlyMap.StatusType.success } := by
  unfold FlyMap.changeMapLayer
  rw [removeCurrentLayers_eq h]
  cases hd : sel == "darkHybrid" with
  | true =>
    simp [hd, FlyMap.attachLayer, FlyMap.addAirportMarkers, FlyMap.updateStatus,
      FlyMap.newLayers, FlyMap.newBaseSource, foldl_append_markers]
  | false =>
    cases ht : sel == "tomtom" with
    | true =>
      simp [hd, ht, FlyMap.attachLayer, FlyMap.addAirportMarkers, FlyMap.updateStatus,
        FlyMap.newLayers, FlyMap.newBaseSource, foldl_append_markers]
    | false =>
      simp [hd, ht, FlyMap.attachLayer, FlyMap.addAirportMarkers, FlyMap.updateStatus,
        FlyMap.newLayers, FlyMap.newBaseSource, foldl_append_markers]

/-- A layer-change call re-establishes the invariant. -/
theorem invB_changeMapLayer (sel : String) (airports : List FlyMap.Airport)
    {s : FlyMap.MapState} (h : FlyMap.invB s = true) :
    FlyMap.invB (FlyMap.changeMapLayer sel airports s) = true := by
  rw [changeMapLayer_eq sel airports s h]
  cases hd : sel == "darkHybrid" <;>
    simp [FlyMap.invB, FlyMap.baseLayersOf, FlyMap.overlayLayersOf, FlyMap.newLayers,
      hd, Option.toList]

/-- The invariant holds right after `initMap`, whatever the
`airports.json` fetch returned. -/
theorem invB_initMap (outcome : Except String (List FlyMap.Airport)) :
    FlyMap.invB (FlyMap.initMap outcome) = true := by
  cases outcome <;>
    simp [FlyMap.initMap, FlyMap.mapState0, FlyMap.attachLayer, FlyMap.addAirportMarkers,
      FlyMap.updateStatus, FlyMap.invB, FlyMap.baseLayersOf, FlyMap.overlayLayersOf,
      Option.toList]

/-- The invariant is preserved by any sequence of layer-change calls. -/
theorem invB_applyChanges (airports : List FlyMap.Airport) (sels : List String) :
    ∀ s : FlyMap.MapState, FlyMap.invB s = true →
      FlyMap.invB (applyChanges airports sels s) = true := by
  induction sels with
  | nil => intro s h; simpa [applyChanges] using h
  | cons sel rest ih =>
    intro s h
    simpa [applyChanges, List.foldl_cons] using
      ih (FlyMap.changeMapLayer sel airports s) (invB_changeMapLayer sel airports h)

/-- The invariant bounds the attached base and overlay layers by one. -/
theorem invB_counts {s : FlyMap.MapState} (h : FlyMap.invB s = true) :
    (FlyMap.baseLayersOf s).length ≤ 1 ∧ (FlyMap.overlayLayersOf s).length ≤ 1 := by
  simp only [FlyMap.invB, Bool.and_eq_true, beq_iff_eq] at h
  obtain ⟨⟨hb, ho⟩, _⟩ := h
  constructor
  · have hlen := congrArg List.length hb
    rw [List.length_map] at hlen
    rw [hlen]
    cases s.currentBaseLayer <;> simp [Option.toList]
  · have hlen := congrArg List.length ho
    rw [List.length_map] at hlen
    rw [hlen]
    cases s.currentOverlayLayer <;> simp [Option.toList]

/-- C3: after map initialization and any finite sequence of
`changeMapLayer` calls with arbitrary selections, at most one base layer
and at most one overlay layer are attached to the map. -/
theorem map_layer_invariant (outcome : Except String (List FlyMap.Airport))
    (airports : List FlyMap.Airport) (sels : List String) :
    (FlyMap.baseLayersOf (applyChanges airports sels (FlyMap.initMap outcome))).length ≤ 1
      ∧ (FlyMap.overlayLayersOf (applyChanges airports sels (FlyMap.initMap outcome))).length ≤ 1 :=
  invB_counts (invB_applyChanges airports sels _ (invB_initMap outcome))

/-- C6: in any state satisfying the map invariant, a layer-change call
performs all four steps to completion: the previously attached base and
overlay layers are removed, the new source configuration is the one the
fixed enumerated table gives for the selection, the new layer(s) are
attached (exactly one base, plus the labels overlay for `darkHybrid`),
and the airport-marker recompute runs on the full airport list at the
current zoom; the status line reports the change. -/
theorem changeMapLayer_four_steps (sel : String) (airports : List FlyMap.Airport)
    (s : FlyMap.MapState) (h : FlyMap.invB s = true) :
    (∀ b, s.currentBaseLayer = some b →
        ((FlyMap.changeMapLayer sel airports s).attached.all fun l => decide (l.id ≠ b)) = true)
      ∧ (∀ o, s.currentOverlayLayer = some o →
        ((FlyMap.changeMapLayer sel airports s).attached.all fun l => decide (l.id ≠ o)) = true)
      ∧ (FlyMap.baseLayersOf (FlyMap.changeMapLayer sel airports s)).map FlyMap.Layer.source
          = [FlyMap.newBaseSource sel]
      ∧ (FlyMap.overlayLayersOf (FlyMap.changeMapLayer sel airports s)).map FlyMap.Layer.source
          = (if sel == "darkHybrid" then [FlyMap.SourceConfig.tile FlyMap.googleLabelsConfig] else [])
      ∧ (FlyMap.changeMapLayer sel airports s).airportMarkers
          = (airports.filter fun a => FlyMap.bandB s.zoom a).map FlyMap.mkAirportMarker
      ∧ (FlyMap.changeMapLayer sel airports s).statusMessage
          = some (FlyMap.StatusMsg.layerChanged sel) := by
  have hlt := invB_current_lt h
  rw [changeMapLayer_eq sel airports s h]
  refine ⟨?_, ?_, ?_, ?_, rfl, rfl⟩
  · intro b hbb
    have hb := hlt.1 b hbb
    cases hd : sel == "darkHybrid" <;> simp [FlyMap.newLayers, hd] <;> omega
  · intro o hoo
    have ho := hlt.2 o hoo
    cases hd : sel == "darkHybrid" <;> simp [FlyMap.newLayers, hd] <;> omega
  · cases hd : sel == "darkHybrid" <;>
      simp [FlyMap.newLayers, FlyMap.newBaseSource, FlyMap.baseLayersOf, hd]
  · cases hd : sel == "darkHybrid" <;>
      simp [FlyMap.newLayers, FlyMap.overlayLayersOf, hd]

/-- The concrete state right after `initMap` with an empty airport list. -/
def initialMapState : FlyMap.MapState := FlyMap.initMap (Except.ok [])

/-- C6 witness: a concrete layer change on the concrete post-`initMap`
state attaches exactly the satellite source from the table. -/
theorem changeMapLayer_four_steps_witness :
    FlyMap.invB initialMapState = true
      ∧ (FlyMap.baseLayersOf (FlyMap.changeMapLayer "satellite" [] initialMapState)).map FlyMap.Layer.source
          = [FlyMap.newBaseSource "satellite"] :=
  ⟨invB_initMap (Except.ok []),
   (changeMapLayer_four_steps "satellite" [] initialMapState (invB_initMap (Except.ok []))).2.2.1⟩
